import Mathlib

/-!
# ValerIA web client (`src/web/app.js`): a shallow embedding

The client is a single script: module variables `sessionId` and `isProcessing`,
a handful of DOM elements, and event handlers that talk to the backend with
`fetch`.  The embedding below keeps

* JavaScript strings as sequences of UTF-16 code units (`JSString`), so that
  `length` and `substring` count exactly what the script counts;
* the DOM state the handlers read and write as an explicit record (`Client`);
* the outside world (the backend behind `fetch`, `Date.now`, `Math.random`,
  the markdown renderer) as an explicit environment (`Env`).

Every handler is modelled as one atomic state transformer: an `await` is the
point where the environment's answer is read.  Interleavings of two handlers
at an `await`, timers (`setTimeout`) and layout (heights, scrolling, focus)
are outside the model.

The script looks elements up in the live document: `getElementById` in
`removeMessage` and `querySelector('.welcome-message')` in `addMessage`.  Both
see the markup that `addMessage` renders from message text, so every message
entry carries the elements of its rendered markup with their ids and classes.
The page around `chatContainer` is taken to hold no element with a
`loading-...` id.
-/

namespace Valeria

/-! ## JavaScript strings -/

/-- A JavaScript string: its sequence of UTF-16 code units. -/
abbrev JSString := List Nat

/-- UTF-16 encoding of one code point. -/
def utf16 (c : Char) : List Nat :=
  if c.toNat < 0x10000 then [c.toNat]
  else [0xD800 + (c.toNat - 0x10000) / 0x400, 0xDC00 + (c.toNat - 0x10000) % 0x400]

/-- The JavaScript string denoted by a string literal of the script. -/
def js (s : String) : JSString :=
  (s.toList.map utf16).flatten

/-- JavaScript truthiness of a string: `""` is falsy, every other string truthy. -/
def truthy (s : JSString) : Bool :=
  !s.isEmpty

/-- Method `String.prototype.substring(start, end)`: both indices are clamped to the
length and swapped when `start > end`. -/
def substring (t : JSString) (a b : Nat) : JSString :=
  let a := min a t.length
  let b := min b t.length
  (t.drop (min a b)).take (max a b - min a b)

/-- Method `String.prototype.substring(start)`: the end defaults to the length. -/
def substringFrom (t : JSString) (a : Nat) : JSString :=
  substring t a t.length

/-- The code units `String.prototype.trim` strips: ECMAScript WhiteSpace and
LineTerminator (all of them in the basic multilingual plane). -/
def isTrimUnit (c : Nat) : Bool :=
  c == 0x09 || c == 0x0A || c == 0x0B || c == 0x0C || c == 0x0D || c == 0x20 ||
  c == 0xA0 || c == 0x1680 || (0x2000 ≤ c && c ≤ 0x200A) || c == 0x2028 ||
  c == 0x2029 || c == 0x202F || c == 0x205F || c == 0x3000 || c == 0xFEFF

/-- Method `String.prototype.trim`. -/
def trim (s : JSString) : JSString :=
  ((s.dropWhile isTrimUnit).reverse.dropWhile isTrimUnit).reverse

/-- Method `Number.prototype.toString(16)` on a non-negative integer: lowercase
hexadecimal, no leading zeros. -/
def toString16 (n : Nat) : JSString :=
  (Nat.toDigits 16 n).map Char.toNat

/-- Decimal rendering of a non-negative integer, as string concatenation does. -/
def toString10 (n : Nat) : JSString :=
  (Nat.toDigits 10 n).map Char.toNat

/-! ## Values read from a response body -/

/-- A property read from a parsed JSON body: missing (`undefined`), JSON `null`,
or a string.  The backend contract only has string-valued properties. -/
inductive JsVal where
  | undefined
  | null
  | str (s : JSString)
  deriving DecidableEq, Repr

/-- JavaScript truthiness of a property value. -/
def JsVal.truthy : JsVal → Bool
  | .str s => Valeria.truthy s
  | _ => false

/-- String conversion, as in a template literal or `new Error(v)`. -/
def JsVal.toJSString : JsVal → JSString
  | .undefined => js "undefined"
  | .null => js "null"
  | .str s => s

/-- An element of the `history` array: `{role, content}`. -/
structure HistoryItem where
  role : JsVal
  content : JsVal
  deriving DecidableEq, Repr

/-- The parsed body of a backend response (the properties the script reads).  Property
`history` is `none` when it is missing or null, and the array otherwise. -/
structure Data where
  response : JsVal
  session_id : JsVal
  error : JsVal
  message : JsVal
  file_path : JsVal
  history : Option (List HistoryItem)
  deriving DecidableEq, Repr

/-- What `await fetch(...)` followed by `await response.json()` delivers. -/
inductive FetchResult where
  /-- The call to `fetch` rejects with an error carrying `msg`. -/
  | rejected (msg : JSString)
  /-- A response arrives but `response.json()` rejects with an error carrying `msg`. -/
  | badBody (ok : Bool) (msg : JSString)
  /-- A response arrives, `response.ok` is `ok`, and the body parses to `data`. -/
  | json (ok : Bool) (data : Data)
  deriving DecidableEq, Repr

/-- A selected file; the script only reads its name. -/
structure File where
  name : JSString
  deriving DecidableEq, Repr

/-- A request handed to `fetch`. -/
inductive Request where
  /-- Request `POST /api/chat` with JSON body `{message, session_id}`. -/
  | chat (message : JSString) (session_id : Option JSString)
  /-- Request `POST /api/upload` with multipart fields `file` and `session_id`. -/
  | upload (file : File) (session_id : Option JSString)
  /-- Request `GET /api/history?session_id=...`. -/
  | history (session_id : Option JSString)
  /-- Request `POST /api/clear` with JSON body `{session_id}`. -/
  | clear (session_id : Option JSString)
  deriving DecidableEq, Repr

/-! ## Client state and environment -/

/-- An element of rendered markup: its nesting depth, its `id` attribute and its classes.
The elements of a piece of markup are listed in document order, so the descendants of an
element are the elements that follow it, up to the first one that is not deeper. -/
structure Elem where
  depth : Nat
  id : Option JSString
  classes : List JSString
  deriving DecidableEq, Repr

/-- The elements of a piece of rendered markup, in document order. -/
abbrev Markup := List Elem

/-- A child of `chatContainer`. -/
inductive Entry where
  /-- The `div.welcome-message` banner. -/
  | welcome
  /-- A `div.message.<role>` built by `addMessage`: the content it was given, and the
  elements now inside its `div.message-content`. -/
  | message (role : JSString) (content : JSString) (elems : Markup)
  /-- A `div.message.assistant.loading` placeholder with its element id. -/
  | loading (id : JSString)
  /-- A `div.error-message` with its text. -/
  | error (content : JSString)
  deriving DecidableEq, Repr

/-- The module variables, the stored session key and the DOM state the handlers use. -/
structure Client where
  /-- Module variable `sessionId` (`none` is `null`). -/
  sessionId : Option JSString
  /-- Module variable `isProcessing`; the three controls are disabled exactly when it is set. -/
  isProcessing : Bool
  /-- Value of `localStorage` under `valeria_session_id` (`none` when the key is absent). -/
  storage : Option JSString
  /-- Children of `chatContainer`, in document order. -/
  log : List Entry
  /-- Property `messageInput.value`. -/
  input : JSString
  /-- Property `messageInput.selectionStart`. -/
  selectionStart : Nat
  /-- Property `messageInput.selectionEnd`. -/
  selectionEnd : Nat
  /-- Property `statusBar.textContent`. -/
  status : JSString
  /-- Property `fileName.textContent`. -/
  fileName : JSString
  /-- The requests handed to `fetch` so far, oldest first. -/
  sent : List Request
  deriving DecidableEq, Repr

/-- The outside world as one handler invocation sees it. -/
structure Env where
  /-- Answer of the backend to a request. -/
  fetch : Request → FetchResult
  /-- Value of `Date.now()`. -/
  now : Nat
  /-- The integer `Math.random() * 16 | 0` obtained at the i-th draw. -/
  random : Nat → Nat
  /-- Message of the error the markdown renderer throws when handed `undefined` or `null`. -/
  renderError : JSString
  /-- The elements of the markup `marked.parse` returns for a string, once it is set as
  `innerHTML`.  The renderer is the pure function `render(text) -> html` of the
  specification. -/
  render : JSString → Markup

/-! ## The compose field -/

/-- Assignment to `messageInput.value`: when the value changes, the caret moves to the
end of the new value and nothing stays selected. -/
def setValue (st : Client) (v : JSString) : Client :=
  if st.input = v then st
  else { st with input := v, selectionStart := v.length, selectionEnd := v.length }

/-- Method `messageInput.setSelectionRange(start, end)`: both ends are clamped to the
length of the value (and the start to the end). -/
def setSelectionRange (st : Client) (a b : Nat) : Client :=
  let b := min b st.input.length
  { st with selectionStart := min a b, selectionEnd := b }


/-- Function `insertMarkdown(syntax)` (lines 314-356); `md` is the `syntax` argument. -/
def insertMarkdown (st : Client) (md : JSString) : Client :=
  let start := st.selectionStart
  let stop := st.selectionEnd
  let text := st.input
  let selectedText := substring text start stop
  let insertion : JSString :=
    if md = js "```" then
      if truthy selectedText then js "```\n" ++ selectedText ++ js "\n```" else js "```\n\n```"
    else if md = js "- " then
      if truthy selectedText then js "- " ++ selectedText else js "- "
    else if md = js "[]()" then
      if truthy selectedText then js "[" ++ selectedText ++ js "]()" else js "[]()"
    else
      if truthy selectedText then md ++ selectedText ++ md else md ++ md
  let cursorOffset : Nat :=
    if md = js "```" then
      if truthy selectedText then insertion.length else 4
    else if md = js "- " then
      insertion.length
    else if md = js "[]()" then
      if truthy selectedText then insertion.length - 1 else 1
    else
      if truthy selectedText then insertion.length else md.length
  let value := substring text 0 start ++ insertion ++ substringFrom text stop
  let st := setValue st value
  let newCursorPos := start + cursorOffset
  setSelectionRange st newCursorPos newCursorPos

/-! ## The conversation log -/

/-- Function `updateStatus(message)` (lines 375-377). -/
def updateStatus (st : Client) (message : JSString) : Client :=
  { st with status := message }

/-- Function `setProcessing(processing)` (lines 362-373).  The `disabled` flags of the
send button, the upload button and the compose field always equal `isProcessing`. -/
def setProcessing (st : Client) (processing : Bool) : Client :=
  let st := { st with isProcessing := processing }
  if processing then updateStatus st (js "Processing...") else updateStatus st (js "Ready")

/-- The class names in a `className` string: its pieces between ASCII whitespace. -/
def classTokens (s : JSString) : List JSString :=
  let step (c : Nat) (acc : JSString × List JSString) : JSString × List JSString :=
    if c = 0x20 ∨ c = 0x09 ∨ c = 0x0A ∨ c = 0x0C ∨ c = 0x0D then
      ([], if acc.1 = [] then acc.2 else acc.1 :: acc.2)
    else (c :: acc.1, acc.2)
  let acc := s.foldr step ([], [])
  if acc.1 = [] then acc.2 else acc.1 :: acc.2

/-- The `id` of the element an entry is. -/
def Entry.ownId : Entry → Option JSString
  | .loading id => some id
  | _ => none

/-- The classes of the element an entry is. -/
def Entry.ownClasses : Entry → List JSString
  | .welcome => [js "welcome-message"]
  | .message role _ _ => classTokens (js "message " ++ role)
  | .loading _ => [js "message", js "assistant", js "loading"]
  | .error _ => [js "error-message"]

/-- Method `remove()` on the first element of a piece of markup that satisfies `p`: the
element goes with its descendants.  The result is `none` when no element satisfies `p`. -/
def removeElem (p : Elem → Bool) : Markup → Option Markup
  | [] => none
  | e :: rest =>
    if p e then some (rest.dropWhile (fun x => decide (e.depth < x.depth)))
    else (removeElem p rest).map (fun r => e :: r)

/-- Method `remove()` on the first element, in document order, that a lookup finds among
the children of `chatContainer` and their descendants: `own` tests an entry itself and
`inner` an element of rendered markup.  Nothing changes when there is none. -/
def removeFirst (own : Entry → Bool) (inner : Elem → Bool) : List Entry → List Entry
  | [] => []
  | e :: rest =>
    if own e then rest
    else
      match e with
      | .message role c elems =>
        match removeElem inner elems with
        | some elems1 => Entry.message role c elems1 :: rest
        | none => e :: removeFirst own inner rest
      | _ => e :: removeFirst own inner rest

/-- The lookup `chatContainer.querySelector('.welcome-message')` of `addMessage`, followed
by `remove()` on what it finds (lines 244-247). -/
def removeWelcome (log : List Entry) : List Entry :=
  removeFirst (fun e => e.ownClasses.contains (js "welcome-message"))
    (fun x => x.classes.contains (js "welcome-message")) log

/-- Function `addMessage(role, content)` (lines 242-268).  The welcome banner is removed
first; then `formatMessage(content)` calls the renderer, which throws on `undefined` and
`null`; only then is the new entry appended.  The second component is the message of
the error thrown, if any. -/
def addMessage (env : Env) (st : Client) (role : JSString) (content : JsVal) :
    Client × Option JSString :=
  let st := { st with log := removeWelcome st.log }
  match content with
  | .str c => ({ st with log := st.log ++ [Entry.message role c (env.render c)] }, none)
  | _ => (st, some env.renderError)

/-- The element id `addLoadingMessage` gives its placeholder: `'loading-' + Date.now()`. -/
def loadingElementId (env : Env) : JSString :=
  js "loading-" ++ toString10 env.now

/-- Function `addLoadingMessage()` (lines 270-288); returns the new state and the id. -/
def addLoadingMessage (env : Env) (st : Client) : Client × JSString :=
  ({ st with log := st.log ++ [Entry.loading (loadingElementId env)] }, loadingElementId env)

/-- Function `removeMessage(messageId)` (lines 290-295): `document.getElementById` finds
the first element of the document carrying the id, be it a placeholder or an element
rendered inside a message entry, and that element is removed; nothing happens when there
is none. -/
def removeMessage (st : Client) (messageId : JSString) : Client :=
  let log := removeFirst (fun e => e.ownId == some messageId) (fun x => x.id == some messageId)
    st.log
  { st with log := log }

/-- Function `addErrorMessage(content)` (lines 297-307), without its five-second timer. -/
def addErrorMessage (st : Client) (content : JSString) : Client :=
  { st with log := st.log ++ [Entry.error content] }

/-! ## Session identifiers -/

/-- The pattern `generateSessionId` fills in. -/
def sessionIdTemplate : JSString :=
  js "xxxxxxxx-xxxx-4xxx-yxxx-xxxxxxxxxxxx"

/-- The call `.replace(/[xy]/g, function(c) ...)` of `generateSessionId`: every `x` and
`y` is replaced, left to right, by the callback's result; `i` counts the draws made. -/
def replaceXY (random : Nat → Nat) : JSString → Nat → JSString
  | [], _ => []
  | c :: cs, i =>
    if c = (Char.toNat 'x') ∨ c = (Char.toNat 'y') then
      let r := random i
      let v := if c = (Char.toNat 'x') then r else ((r &&& 0x3) ||| 0x8)
      toString16 v ++ replaceXY random cs (i + 1)
    else
      c :: replaceXY random cs i

/-- Function `generateSessionId()` (lines 379-385). -/
def generateSessionId (random : Nat → Nat) : JSString :=
  replaceXY random sessionIdTemplate 0

/-- Module initialisation (lines 3-5): `sessionId` is the stored value, or `null` when
the key is absent or empty; `isProcessing` is clear.  The children of `chatContainer`
and the compose field come from the page. -/
def init (stored : Option JSString) (log : List Entry) (input : JSString) : Client :=
  { sessionId := match stored with
      | some s => if truthy s then some s else none
      | none => none
    isProcessing := false
    storage := stored
    log := log
    input := input
    selectionStart := input.length
    selectionEnd := input.length
    status := js "Ready"
    fileName := []
    sent := [] }

/-- Truthiness of the module variable `sessionId` (`null` and `""` are falsy). -/
def hasSession (st : Client) : Bool :=
  match st.sessionId with
  | some s => truthy s
  | none => false

/-- The "create session if needed" step of `handleFileSelect` (lines 136-140). -/
def ensureSession (env : Env) (st : Client) : Client :=
  if !hasSession st then
    let id := generateSessionId env.random
    { st with sessionId := some id, storage := some id }
  else st

/-! ## The handlers -/

/-- Function `sendMessage()` (lines 79-128). -/
def sendMessage (env : Env) (st : Client) : Client :=
  let message := trim st.input
  if !truthy message || st.isProcessing then st
  else
    let st := setValue st []
    -- the content is a string, so this `addMessage` cannot throw
    let st := (addMessage env st (js "user") (.str message)).1
    let (st, loadingId) := addLoadingMessage env st
    let st := setProcessing st true
    -- try
    let req := Request.chat message st.sessionId
    let st := { st with sent := st.sent ++ [req] }
    let (st, thrown) : Client × Option JSString :=
      match env.fetch req with
      | .rejected msg => (st, some msg)
      | .badBody _ msg => (st, some msg)
      | .json ok data =>
        if !ok then
          (st, some (if data.error.truthy then data.error.toJSString else js "Request failed"))
        else
          let st :=
            if data.session_id.truthy then
              { st with sessionId := some data.session_id.toJSString
                        storage := some data.session_id.toJSString }
            else st
          let st := removeMessage st loadingId
          addMessage env st (js "assistant") data.response
    -- catch
    let st :=
      match thrown with
      | none => st
      | some msg => addErrorMessage (removeMessage st loadingId) (js "Error: " ++ msg)
    -- finally
    setProcessing st false

/-- Function `handleFileSelect(e)` (lines 130-178); `file` is `e.target.files[0]`. -/
def handleFileSelect (env : Env) (file : Option File) (st : Client) : Client :=
  match file with
  | none => st
  | some file =>
    let st := { st with fileName := file.name }
    let st := ensureSession env st
    let st := setProcessing st true
    let st := updateStatus st (js "Uploading " ++ file.name ++ js "...")
    -- try
    let req := Request.upload file st.sessionId
    let st := { st with sent := st.sent ++ [req] }
    let (st, thrown) : Client × Option JSString :=
      match env.fetch req with
      | .rejected msg => (st, some msg)
      | .badBody _ msg => (st, some msg)
      | .json ok data =>
        if !ok then
          (st, some (if data.error.truthy then data.error.toJSString else js "Upload failed"))
        else
          let st := (addMessage env st (js "user") (.str (js "📎 Uploaded: " ++ file.name))).1
          match addMessage env st (js "assistant") data.message with
          | (st, some msg) => (st, some msg)
          | (st, none) =>
            let st :=
              setValue st (js "Process the file I just uploaded: " ++ data.file_path.toJSString)
            (sendMessage env st, none)
    -- catch
    let st :=
      match thrown with
      | none => st
      | some msg => addErrorMessage st (js "Upload error: " ++ msg)
    -- finally
    let st := setProcessing st false
    let st := updateStatus st (js "Ready")
    { st with fileName := [] }

/-- The `forEach` of `loadHistory` (lines 192-196): entries whose role is `user` or
`assistant` are added in order; an `addMessage` that throws ends the loop. -/
def loadHistoryItems (env : Env) : List HistoryItem → Client → Client × Option JSString
  | [], st => (st, none)
  | msg :: rest, st =>
    if msg.role = .str (js "user") ∨ msg.role = .str (js "assistant") then
      match addMessage env st msg.role.toJSString msg.content with
      | (st, some e) => (st, some e)
      | (st, none) => loadHistoryItems env rest st
    else loadHistoryItems env rest st

/-- Function `loadHistory()` (lines 180-201).  Every failure ends in the `catch`, which
only logs. -/
def loadHistory (env : Env) (st : Client) : Client :=
  if !hasSession st then st
  else
    let req := Request.history st.sessionId
    let st := { st with sent := st.sent ++ [req] }
    match env.fetch req with
    | .rejected _ => st
    | .badBody _ _ => st
    | .json _ data =>
      match data.history with
      | none => st
      | some [] => st
      | some (msg :: rest) =>
        let st := { st with log := [] }
        (loadHistoryItems env (msg :: rest) st).1

/-- Function `clearConversation()` (lines 203-240); `confirmed` is what `confirm(...)`
returns.  The request, the local reset and the banner reset all sit in one `try`, whose
`catch` only logs. -/
def clearConversation (env : Env) (confirmed : Bool) (st : Client) : Client :=
  if !confirmed then st
  else
    let reset (st : Client) : Client :=
      updateStatus { st with sessionId := none, storage := none, log := [Entry.welcome] }
        (js "Ready")
    if hasSession st then
      let req := Request.clear st.sessionId
      let st := { st with sent := st.sent ++ [req] }
      match env.fetch req with
      | .rejected _ => st
      | _ => reset st
    else reset st

/-! ## The page as a transition system -/

/-- A held session identifier is the stored one. -/
def SessionStored (st : Client) : Prop :=
  hasSession st = true → st.storage = st.sessionId

/-- One event of the page, run to completion: a handler of the script, the user editing
the compose field, or the timer of an error entry firing. -/
inductive Step : Client → Client → Prop where
  | send (env : Env) (st : Client) : Step st (sendMessage env st)
  | file (env : Env) (file : Option File) (st : Client) : Step st (handleFileSelect env file st)
  | history (env : Env) (st : Client) : Step st (loadHistory env st)
  | clear (env : Env) (confirmed : Bool) (st : Client) :
      Step st (clearConversation env confirmed st)
  | markdown (md : JSString) (st : Client) : Step st (insertMarkdown st md)
  | edit (v : JSString) (a b : Nat) (st : Client) :
      Step st (setSelectionRange (setValue st v) a b)
  | expire (c : JSString) (st : Client) :
      Step st { st with log := st.log.erase (Entry.error c) }

/-- The states the page can be in between two events. -/
inductive Reachable : Client → Prop where
  | start (stored : Option JSString) (log : List Entry) (input : JSString) :
      Reachable (init stored log input)
  | step {st st1 : Client} : Reachable st → Step st st1 → Reachable st1

/-! ## Vocabulary of the statements -/

/-- Lowercase hexadecimal digit of value `v`, as a code unit. -/
def hexUnit (v : Nat) : Nat :=
  if v < 10 then 48 + v else 87 + v

/-- Whether a code unit is one of `0`-`9`, `a`-`f`. -/
def isLowerHex (c : Nat) : Bool :=
  (48 ≤ c && c ≤ 57) || (97 ≤ c && c ≤ 102)

/-- The shape of a version-4 UUID: 36 code units, hyphens exactly at 8, 13, 18 and 23,
lowercase hexadecimal digits elsewhere, `4` at index 14 and one of `8 9 a b` at index 19. -/
def UuidV4Shaped (s : JSString) : Prop :=
  s.length = 36 ∧
  (∀ i, i = 8 ∨ i = 13 ∨ i = 18 ∨ i = 23 → s[i]? = some (Char.toNat '-')) ∧
  (∀ i, i < 36 → i ≠ 8 → i ≠ 13 → i ≠ 18 → i ≠ 23 →
    ∃ c, s[i]? = some c ∧ isLowerHex c = true) ∧
  s[14]? = some (Char.toNat '4') ∧
  (s[19]? = some (Char.toNat '8') ∨ s[19]? = some (Char.toNat '9') ∨
    s[19]? = some (Char.toNat 'a') ∨ s[19]? = some (Char.toNat 'b'))

/-- Whether `getElementById(id)` finds an element among the entries and their markup. -/
def holdsId (id : JSString) (log : List Entry) : Bool :=
  log.any fun e =>
    e.ownId == some id ||
      match e with
      | .message _ _ elems => elems.any fun x => x.id == some id
      | _ => false

/-- A failed exchange in the sense of the specification: the HTTP layer rejects, or the
response is not 2xx. -/
def failedExchange : FetchResult → Bool
  | .rejected _ => true
  | .badBody ok _ => !ok
  | .json ok _ => !ok

/-- The error text as the specification words it: `Error: ` followed by the body's error
field when that field is present, and by the generic message otherwise. -/
def specErrorText : FetchResult → JSString
  | .json _ data =>
    match data.error with
    | .str e => js "Error: " ++ e
    | _ => js "Error: " ++ js "Request failed"
  | _ => js "Error: " ++ js "Request failed"

/-- The call to `fetch` resolves with a response, whatever its status. -/
def answered : FetchResult → Bool
  | .rejected _ => false
  | _ => true

/-! ## Concrete inputs -/

/-- Markup of a single paragraph. -/
def paragraph : Markup :=
  [{ depth := 0, id := none, classes := [] }]

/-- A compose text with inline HTML: a bold element carrying an id. -/
def boldWithId : JSString :=
  js "<b id=\"loading-1730000000000\">hi</b>"

/-- A renderer that wraps its input in one paragraph and passes inline HTML through:
plain text renders to a paragraph, `boldWithId` to a paragraph holding the bold element
with its id. -/
def sampleRender (text : JSString) : Markup :=
  if text = boldWithId then
    paragraph ++ [{ depth := 1, id := some (js "loading-1730000000000"), classes := [] }]
  else paragraph

/-- A body with no property set. -/
def noData : Data :=
  { response := .undefined, session_id := .undefined, error := .undefined,
    message := .undefined, file_path := .undefined, history := none }

/-- A client that holds session `abc-123`, shows the banner and has text composed. -/
def sampleClient : Client :=
  { sessionId := some (js "abc-123"), isProcessing := false, storage := some (js "abc-123"),
    log := [Entry.welcome], input := js "Show me all companies", selectionStart := 0,
    selectionEnd := 0, status := js "Ready", fileName := [], sent := [] }

/-- The same client with an empty compose field. -/
def idleClient : Client :=
  { sampleClient with input := [] }

/-- The same client before any session exists. -/
def freshClient : Client :=
  { sampleClient with sessionId := none, storage := none }

/-- A client without session whose compose field holds `boldWithId`. -/
def htmlClient : Client :=
  { freshClient with input := boldWithId }

/-- The same client while a request is in flight. -/
def busyClient : Client :=
  { sampleClient with isProcessing := true, status := js "Processing..." }

/-- A compose field holding `hello world` with `hello` selected. -/
def editorSelection : Client :=
  { sampleClient with input := js "hello world", selectionStart := 0, selectionEnd := 5 }

/-- A compose field holding `hello world` with the caret after `hel`. -/
def editorCaret : Client :=
  { sampleClient with input := js "hello world", selectionStart := 3, selectionEnd := 3 }

/-- The file of the upload scenario. -/
def nomina : File :=
  { name := js "nomina.pdf" }

/-- A sequence of draws. -/
def sampleDraws : Nat → Nat :=
  fun i => (7 * i + 3) % 16

/-- A backend that answers every request with success. -/
def backend : Env :=
  { fetch := fun req =>
      match req with
      | .chat _ _ =>
        FetchResult.json true
          { noData with response := .str (js "..."), session_id := .str (js "abc-123") }
      | .upload _ _ =>
        FetchResult.json true
          { noData with message := .str (js "File uploaded successfully"),
                        file_path := .str (js "/uploads/nomina.pdf") }
      | .history _ => FetchResult.json true noData
      | .clear _ => FetchResult.json true noData
    now := 1730000000000
    random := sampleDraws
    renderError := js "marked(): input parameter is undefined or null"
    render := sampleRender }

/-- A network on which every `fetch` rejects. -/
def offlineEnv : Env :=
  { backend with fetch := fun _ => FetchResult.rejected (js "Failed to fetch") }

/-- A backend that answers every request with a non-2xx status and an error body. -/
def failingEnv : Env :=
  { backend with
    fetch := fun _ => FetchResult.json false { noData with error := .str (js "Backend unavailable") } }

/-- A backend that answers non-2xx with an empty error string. -/
def emptyErrorEnv : Env :=
  { backend with fetch := fun _ => FetchResult.json false { noData with error := .str [] } }

/-! ## String lemmas -/

theorem truthy_iff (s : JSString) : truthy s = true ↔ s ≠ [] := by
  cases s <;> simp [truthy]

theorem substring_of_le (t : JSString) (a b : Nat) (hab : a ≤ b) (hb : b ≤ t.length) :
    substring t a b = (t.drop a).take (b - a) := by
  have ha : a ≤ t.length := le_trans hab hb
  simp [substring, Nat.min_eq_left ha, Nat.min_eq_left hb, Nat.min_eq_left hab,
    Nat.max_eq_right hab]

theorem substring_zero (t : JSString) (a : Nat) (ha : a ≤ t.length) :
    substring t 0 a = t.take a := by
  rw [substring_of_le t 0 a (Nat.zero_le _) ha]; simp

theorem substringFrom_of_le (t : JSString) (a : Nat) (ha : a ≤ t.length) :
    substringFrom t a = t.drop a := by
  unfold substringFrom
  rw [substring_of_le t a t.length ha le_rfl]
  simp

theorem length_slice (t : JSString) (a b : Nat) (hb : b ≤ t.length) :
    ((t.drop a).take (b - a)).length = b - a := by
  simp; omega

theorem truthy_slice (t : JSString) (a b : Nat) (hab : a < b) (hb : b ≤ t.length) :
    truthy ((t.drop a).take (b - a)) = true := by
  rw [truthy_iff, ← List.length_pos, length_slice t a b hb]; omega

theorem falsy_slice (t : JSString) (a : Nat) :
    truthy ((t.drop a).take (a - a)) = false := by
  simp [truthy]


/-! ## The compose field -/

@[simp]
theorem setValue_input (st : Client) (v : JSString) : (setValue st v).input = v := by
  unfold setValue; split <;> simp [*]

@[simp]
theorem setValue_sessionId (st : Client) (v : JSString) :
    (setValue st v).sessionId = st.sessionId := by
  unfold setValue; split <;> rfl

@[simp]
theorem setValue_isProcessing (st : Client) (v : JSString) :
    (setValue st v).isProcessing = st.isProcessing := by
  unfold setValue; split <;> rfl

@[simp]
theorem setValue_storage (st : Client) (v : JSString) :
    (setValue st v).storage = st.storage := by
  unfold setValue; split <;> rfl

@[simp]
theorem setValue_log (st : Client) (v : JSString) : (setValue st v).log = st.log := by
  unfold setValue; split <;> rfl

@[simp]
theorem setValue_sent (st : Client) (v : JSString) : (setValue st v).sent = st.sent := by
  unfold setValue; split <;> rfl

/-- What `insertMarkdown` leaves in the compose field: the new value, with the caret at
`pos` clamped to its length. -/
theorem setSelectionRange_setValue (st : Client) (v : JSString) (pos : Nat) :
    (setSelectionRange (setValue st v) pos pos).input = v ∧
    (setSelectionRange (setValue st v) pos pos).selectionStart = min pos v.length ∧
    (setSelectionRange (setValue st v) pos pos).selectionEnd = min pos v.length := by
  simp [setSelectionRange]

/-! ## The markdown toolbar: symmetric wrap, link, fenced block -/

theorem take_append_of_length {α : Type} (a b : List α) (n : Nat) (h : a.length = n) :
    (a ++ b).take n = a := by
  subst h; simp

/-- Claim C6.  For a token `k` other than the fence, the list prefix and the link token,
and a selection `s ≤ e ≤ length text`: with an empty selection `insertMarkdown` yields
`text[:s] + k + k + text[s:]` with the cursor at `s + length k`, between the two markers
(for `**`: `text[:s] + "****" + text[s:]`, cursor `s + 2`); with a non-empty selection it
yields `text[:s] + k + text[s:e] + k + text[e:]` with the cursor at `e + 2 * length k`,
right after the closing marker. -/
theorem insertMarkdown_symmetric_wrap (st : Client) (k : JSString)
    (hk1 : k ≠ js "```") (hk2 : k ≠ js "- ") (hk3 : k ≠ js "[]()")
    (hse : st.selectionStart ≤ st.selectionEnd) (hel : st.selectionEnd ≤ st.input.length) :
    (st.selectionStart = st.selectionEnd →
      (insertMarkdown st k).input
          = st.input.take st.selectionStart ++ k ++ k ++ st.input.drop st.selectionStart ∧
      (insertMarkdown st k).selectionStart = st.selectionStart + k.length ∧
      (insertMarkdown st k).selectionEnd = st.selectionStart + k.length ∧
      (insertMarkdown st k).input.take (insertMarkdown st k).selectionStart
          = st.input.take st.selectionStart ++ k) ∧
    (st.selectionStart = st.selectionEnd → k = js "**" →
      (insertMarkdown st k).input
          = st.input.take st.selectionStart ++ js "****" ++ st.input.drop st.selectionStart ∧
      (insertMarkdown st k).selectionStart = st.selectionStart + 2 ∧
      (insertMarkdown st k).selectionEnd = st.selectionStart + 2) ∧
    (st.selectionStart < st.selectionEnd →
      (insertMarkdown st k).input
          = st.input.take st.selectionStart ++ k
            ++ (st.input.drop st.selectionStart).take (st.selectionEnd - st.selectionStart) ++ k
            ++ st.input.drop st.selectionEnd ∧
      (insertMarkdown st k).selectionStart = st.selectionEnd + 2 * k.length ∧
      (insertMarkdown st k).selectionEnd = st.selectionEnd + 2 * k.length ∧
      (insertMarkdown st k).input.take (insertMarkdown st k).selectionStart
          = st.input.take st.selectionStart ++ k
            ++ (st.input.drop st.selectionStart).take (st.selectionEnd - st.selectionStart)
            ++ k) := by
  have hsl : st.selectionStart ≤ st.input.length := le_trans hse hel
  have hsub := substring_of_le st.input _ _ hse hel
  have hempty : st.selectionStart = st.selectionEnd →
      (insertMarkdown st k).input
          = st.input.take st.selectionStart ++ k ++ k ++ st.input.drop st.selectionStart ∧
      (insertMarkdown st k).selectionStart = st.selectionStart + k.length ∧
      (insertMarkdown st k).selectionEnd = st.selectionStart + k.length := by
    intro h
    have hfalse := falsy_slice st.input st.selectionStart
    rw [← h] at hsub hel
    simp only [insertMarkdown, if_neg hk1, if_neg hk2, if_neg hk3, ← h, hsub, hfalse,
      substring_zero _ _ hsl, substringFrom_of_le _ _ hel]
    simp [setSelectionRange]
    omega
  refine ⟨?_, ?_, ?_⟩
  · intro h
    obtain ⟨h1, h2, h3⟩ := hempty h
    refine ⟨h1, h2, h3, ?_⟩
    rw [h1, h2, List.append_assoc]
    exact take_append_of_length _ _ _ (by simp; omega)
  · intro h hk
    obtain ⟨h1, h2, h3⟩ := hempty h
    subst hk
    refine ⟨?_, h2, h3⟩
    rw [h1, List.append_assoc (st.input.take st.selectionStart)]
    rfl
  · intro h
    have htrue := truthy_slice st.input _ _ h hel
    have hlen := length_slice st.input st.selectionStart _ hel
    have h3 : (insertMarkdown st k).input
          = st.input.take st.selectionStart ++ k
            ++ (st.input.drop st.selectionStart).take (st.selectionEnd - st.selectionStart) ++ k
            ++ st.input.drop st.selectionEnd ∧
        (insertMarkdown st k).selectionStart = st.selectionEnd + 2 * k.length ∧
        (insertMarkdown st k).selectionEnd = st.selectionEnd + 2 * k.length := by
      simp only [insertMarkdown, if_neg hk1, if_neg hk2, if_neg hk3, hsub, htrue,
        substring_zero _ _ hsl, substringFrom_of_le _ _ hel]
      simp [setSelectionRange]
      omega
    obtain ⟨e1, e2, e3⟩ := h3
    refine ⟨e1, e2, e3, ?_⟩
    rw [e1, e2]
    exact take_append_of_length _ _ _ (by simp; omega)

/-- Witness for C6: `**` at the caret after `hel` in `hello world`, and `*` around the
selected `hello`. -/
theorem insertMarkdown_symmetric_wrap_witness :
    ((insertMarkdown editorCaret (js "**")).input = js "hel****lo world" ∧
      (insertMarkdown editorCaret (js "**")).selectionStart = 5 ∧
      (insertMarkdown editorCaret (js "**")).selectionEnd = 5) ∧
    ((insertMarkdown editorSelection (js "*")).input = js "*hello* world" ∧
      (insertMarkdown editorSelection (js "*")).selectionStart = 7 ∧
      (insertMarkdown editorSelection (js "*")).selectionEnd = 7 ∧
      (insertMarkdown editorSelection (js "*")).input.take
          (insertMarkdown editorSelection (js "*")).selectionStart = js "*hello*") :=
  ⟨(insertMarkdown_symmetric_wrap editorCaret (js "**") (by decide) (by decide) (by decide)
      (by decide) (by decide)).2.1 rfl rfl,
    (insertMarkdown_symmetric_wrap editorSelection (js "*") (by decide) (by decide) (by decide)
      (by decide) (by decide)).2.2 (by decide)⟩

/-- Claim C7.  With the link token and a selection `s ≤ e ≤ length text`: a non-empty
selection yields `text[:s] + "[" + text[s:e] + "]()" + text[e:]` with the cursor at
`e + 3`, just before the closing parenthesis; an empty one yields
`text[:s] + "[]()" + text[s:]` with the cursor at `s + 1`, inside the brackets. -/
theorem insertMarkdown_link (st : Client)
    (hse : st.selectionStart ≤ st.selectionEnd) (hel : st.selectionEnd ≤ st.input.length) :
    (st.selectionStart < st.selectionEnd →
      (insertMarkdown st (js "[]()")).input
          = st.input.take st.selectionStart ++ js "["
            ++ (st.input.drop st.selectionStart).take (st.selectionEnd - st.selectionStart)
            ++ js "]()" ++ st.input.drop st.selectionEnd ∧
      (insertMarkdown st (js "[]()")).selectionStart = st.selectionEnd + 3 ∧
      (insertMarkdown st (js "[]()")).selectionEnd = st.selectionEnd + 3 ∧
      (insertMarkdown st (js "[]()")).input.drop (insertMarkdown st (js "[]()")).selectionEnd
          = js ")" ++ st.input.drop st.selectionEnd) ∧
    (st.selectionStart = st.selectionEnd →
      (insertMarkdown st (js "[]()")).input
          = st.input.take st.selectionStart ++ js "[]()" ++ st.input.drop st.selectionStart ∧
      (insertMarkdown st (js "[]()")).selectionStart = st.selectionStart + 1 ∧
      (insertMarkdown st (js "[]()")).selectionEnd = st.selectionStart + 1 ∧
      (insertMarkdown st (js "[]()")).input.take (insertMarkdown st (js "[]()")).selectionStart
          = st.input.take st.selectionStart ++ js "[" ∧
      (insertMarkdown st (js "[]()")).input.drop (insertMarkdown st (js "[]()")).selectionEnd
          = js "]()" ++ st.input.drop st.selectionStart) := by
  have hsl : st.selectionStart ≤ st.input.length := le_trans hse hel
  have hsub := substring_of_le st.input _ _ hse hel
  have h1 : js "[]()" ≠ js "```" := by decide
  have h2 : js "[]()" ≠ js "- " := by decide
  have l1 : (js "[").length = 1 := rfl
  have l2 : (js "]()").length = 3 := rfl
  have l3 : (js "[]()").length = 4 := rfl
  constructor
  · intro h
    have htrue := truthy_slice st.input _ _ h hel
    have hlen := length_slice st.input st.selectionStart _ hel
    have h3 : (insertMarkdown st (js "[]()")).input
          = st.input.take st.selectionStart ++ js "["
            ++ (st.input.drop st.selectionStart).take (st.selectionEnd - st.selectionStart)
            ++ js "]()" ++ st.input.drop st.selectionEnd ∧
        (insertMarkdown st (js "[]()")).selectionStart = st.selectionEnd + 3 ∧
        (insertMarkdown st (js "[]()")).selectionEnd = st.selectionEnd + 3 := by
      simp only [insertMarkdown, if_neg h1, if_neg h2, if_true, hsub, htrue,
        substring_zero _ _ hsl, substringFrom_of_le _ _ hel]
      simp [setSelectionRange, l1, l2]
      omega
    obtain ⟨e1, e2, e3⟩ := h3
    refine ⟨e1, e2, e3, ?_⟩
    have hsplit : st.input.take st.selectionStart ++ js "["
          ++ (st.input.drop st.selectionStart).take (st.selectionEnd - st.selectionStart)
          ++ js "]()" ++ st.input.drop st.selectionEnd
        = (st.input.take st.selectionStart ++ js "["
            ++ (st.input.drop st.selectionStart).take (st.selectionEnd - st.selectionStart)
            ++ js "](") ++ (js ")" ++ st.input.drop st.selectionEnd) := by
      have : js "]()" = js "](" ++ js ")" := rfl
      rw [this]; simp only [List.append_assoc]
    rw [e1, e3, hsplit]
    exact List.drop_left' (by simp [l1, show (js "](").length = 2 from rfl]; omega)
  · intro h
    have hfalse := falsy_slice st.input st.selectionStart
    rw [← h] at hsub hel
    have h3 : (insertMarkdown st (js "[]()")).input
          = st.input.take st.selectionStart ++ js "[]()" ++ st.input.drop st.selectionStart ∧
        (insertMarkdown st (js "[]()")).selectionStart = st.selectionStart + 1 ∧
        (insertMarkdown st (js "[]()")).selectionEnd = st.selectionStart + 1 := by
      simp only [insertMarkdown, if_neg h1, if_neg h2, if_true, ← h, hsub, hfalse,
        substring_zero _ _ hsl, substringFrom_of_le _ _ hel]
      simp [setSelectionRange, l3]
      omega
    obtain ⟨e1, e2, e3⟩ := h3
    have hsplit : st.input.take st.selectionStart ++ js "[]()" ++ st.input.drop st.selectionStart
        = (st.input.take st.selectionStart ++ js "[")
          ++ (js "]()" ++ st.input.drop st.selectionStart) := by
      have : js "[]()" = js "[" ++ js "]()" := rfl
      rw [this]; simp only [List.append_assoc]
    refine ⟨e1, e2, e3, ?_, ?_⟩
    · rw [e1, e2, hsplit]
      exact take_append_of_length _ _ _ (by simp [l1]; omega)
    · rw [e1, e3, hsplit]
      exact List.drop_left' (by simp [l1]; omega)

/-- Witness for C7: `hello world` with `hello` selected becomes `[hello]() world` with the
cursor at 8, before the closing parenthesis; at the caret after `hel` the empty link is
inserted with the cursor at 4. -/
theorem insertMarkdown_link_witness :
    ((insertMarkdown editorSelection (js "[]()")).input = js "[hello]() world" ∧
      (insertMarkdown editorSelection (js "[]()")).selectionStart = 8 ∧
      (insertMarkdown editorSelection (js "[]()")).selectionEnd = 8 ∧
      (insertMarkdown editorSelection (js "[]()")).input.drop
          (insertMarkdown editorSelection (js "[]()")).selectionEnd = js ") world") ∧
    ((insertMarkdown editorCaret (js "[]()")).input = js "hel[]()lo world" ∧
      (insertMarkdown editorCaret (js "[]()")).selectionStart = 4 ∧
      (insertMarkdown editorCaret (js "[]()")).selectionEnd = 4 ∧
      (insertMarkdown editorCaret (js "[]()")).input.take
          (insertMarkdown editorCaret (js "[]()")).selectionStart = js "hel[" ∧
      (insertMarkdown editorCaret (js "[]()")).input.drop
          (insertMarkdown editorCaret (js "[]()")).selectionEnd = js "]()lo world") :=
  ⟨(insertMarkdown_link editorSelection (by decide) (by decide)).1 (by decide),
    (insertMarkdown_link editorCaret (by decide) (by decide)).2 rfl⟩

/-- Claim C8.  With the fence token and a selection `s ≤ e ≤ length text`: a non-empty
selection yields `text[:s] + "```\n" + text[s:e] + "\n```" + text[e:]` with the cursor
after the inserted text, at `e + 8`; an empty one yields `text[:s] + "```\n\n```" + text[s:]`
with the cursor at `s + 4`, right after the opening fence line. -/
theorem insertMarkdown_fence (st : Client)
    (hse : st.selectionStart ≤ st.selectionEnd) (hel : st.selectionEnd ≤ st.input.length) :
    (st.selectionStart < st.selectionEnd →
      (insertMarkdown st (js "```")).input
          = st.input.take st.selectionStart ++ js "```\n"
            ++ (st.input.drop st.selectionStart).take (st.selectionEnd - st.selectionStart)
            ++ js "\n```" ++ st.input.drop st.selectionEnd ∧
      (insertMarkdown st (js "```")).selectionStart = st.selectionEnd + 8 ∧
      (insertMarkdown st (js "```")).selectionEnd = st.selectionEnd + 8 ∧
      (insertMarkdown st (js "```")).input.take (insertMarkdown st (js "```")).selectionStart
          = st.input.take st.selectionStart ++ js "```\n"
            ++ (st.input.drop st.selectionStart).take (st.selectionEnd - st.selectionStart)
            ++ js "\n```") ∧
    (st.selectionStart = st.selectionEnd →
      (insertMarkdown st (js "```")).input
          = st.input.take st.selectionStart ++ js "```\n\n```"
            ++ st.input.drop st.selectionStart ∧
      (insertMarkdown st (js "```")).selectionStart = st.selectionStart + 4 ∧
      (insertMarkdown st (js "```")).selectionEnd = st.selectionStart + 4 ∧
      (insertMarkdown st (js "```")).input.take (insertMarkdown st (js "```")).selectionStart
          = st.input.take st.selectionStart ++ js "```\n") := by
  have hsl : st.selectionStart ≤ st.input.length := le_trans hse hel
  have hsub := substring_of_le st.input _ _ hse hel
  have l1 : (js "```\n").length = 4 := rfl
  have l2 : (js "\n```").length = 4 := rfl
  have l3 : (js "```\n\n```").length = 8 := rfl
  constructor
  · intro h
    have htrue := truthy_slice st.input _ _ h hel
    have hlen := length_slice st.input st.selectionStart _ hel
    have h3 : (insertMarkdown st (js "```")).input
          = st.input.take st.selectionStart ++ js "```\n"
            ++ (st.input.drop st.selectionStart).take (st.selectionEnd - st.selectionStart)
            ++ js "\n```" ++ st.input.drop st.selectionEnd ∧
        (insertMarkdown st (js "```")).selectionStart = st.selectionEnd + 8 ∧
        (insertMarkdown st (js "```")).selectionEnd = st.selectionEnd + 8 := by
      simp only [insertMarkdown, if_true, hsub, htrue,
        substring_zero _ _ hsl, substringFrom_of_le _ _ hel]
      simp [setSelectionRange, l1, l2]
      omega
    obtain ⟨e1, e2, e3⟩ := h3
    refine ⟨e1, e2, e3, ?_⟩
    rw [e1, e2]
    exact take_append_of_length _ _ _ (by simp [l1, l2]; omega)
  · intro h
    have hfalse := falsy_slice st.input st.selectionStart
    rw [← h] at hsub hel
    have h3 : (insertMarkdown st (js "```")).input
          = st.input.take st.selectionStart ++ js "```\n\n```"
            ++ st.input.drop st.selectionStart ∧
        (insertMarkdown st (js "```")).selectionStart = st.selectionStart + 4 ∧
        (insertMarkdown st (js "```")).selectionEnd = st.selectionStart + 4 := by
      simp only [insertMarkdown, if_true, ← h, hsub, hfalse,
        substring_zero _ _ hsl, substringFrom_of_le _ _ hel]
      simp [setSelectionRange, l1, l3]
      omega
    obtain ⟨e1, e2, e3⟩ := h3
    have hsplit : st.input.take st.selectionStart ++ js "```\n\n```"
          ++ st.input.drop st.selectionStart
        = (st.input.take st.selectionStart ++ js "```\n")
          ++ (js "\n```" ++ st.input.drop st.selectionStart) := by
      have : js "```\n\n```" = js "```\n" ++ js "\n```" := rfl
      rw [this]; simp only [List.append_assoc]
    refine ⟨e1, e2, e3, ?_⟩
    rw [e1, e2, hsplit]
    exact take_append_of_length _ _ _ (by simp [l1]; omega)

/-- Witness for C8: `hello world` with `hello` selected becomes a fenced `hello` followed
by ` world`, with the cursor at 13; at the caret after `hel` the empty block is inserted
with the cursor at 7, right after the opening fence line. -/
theorem insertMarkdown_fence_witness :
    ((insertMarkdown editorSelection (js "```")).input = js "```\nhello\n``` world" ∧
      (insertMarkdown editorSelection (js "```")).selectionStart = 13 ∧
      (insertMarkdown editorSelection (js "```")).selectionEnd = 13 ∧
      (insertMarkdown editorSelection (js "```")).input.take
          (insertMarkdown editorSelection (js "```")).selectionStart = js "```\nhello\n```") ∧
    ((insertMarkdown editorCaret (js "```")).input = js "hel```\n\n```lo world" ∧
      (insertMarkdown editorCaret (js "```")).selectionStart = 7 ∧
      (insertMarkdown editorCaret (js "```")).selectionEnd = 7 ∧
      (insertMarkdown editorCaret (js "```")).input.take
          (insertMarkdown editorCaret (js "```")).selectionStart = js "hel```\n") :=
  ⟨(insertMarkdown_fence editorSelection (by decide) (by decide)).1 (by decide),
    (insertMarkdown_fence editorCaret (by decide) (by decide)).2 rfl⟩

/-! ## Session identifiers -/

theorem toString16_digit (v : Nat) (hv : v ≤ 15) : toString16 v = [hexUnit v] := by
  interval_cases v <;> rfl

theorem isLowerHex_hexUnit (v : Nat) (hv : v ≤ 15) : isLowerHex (hexUnit v) = true := by
  interval_cases v <;> rfl

theorem variant_nibble (r : Nat) :
    (r &&& 0x3) ||| 0x8 = 8 ∨ (r &&& 0x3) ||| 0x8 = 9 ∨ (r &&& 0x3) ||| 0x8 = 10 ∨
      (r &&& 0x3) ||| 0x8 = 11 := by
  have h : r &&& 0x3 ≤ 3 := Nat.and_le_right
  interval_cases (r &&& 0x3) <;> simp

theorem sessionIdTemplate_eq : sessionIdTemplate =
    [120, 120, 120, 120, 120, 120, 120, 120, 45, 120, 120, 120, 120, 45, 52, 120, 120, 120, 45,
      121, 120, 120, 120, 45, 120, 120, 120, 120, 120, 120, 120, 120, 120, 120, 120, 120] := by
  decide

theorem generateSessionId_eq (random : Nat → Nat) (hr : ∀ i, random i ≤ 15) :
    generateSessionId random =
      [hexUnit (random 0), hexUnit (random 1), hexUnit (random 2), hexUnit (random 3),
        hexUnit (random 4), hexUnit (random 5), hexUnit (random 6), hexUnit (random 7), 45,
        hexUnit (random 8), hexUnit (random 9), hexUnit (random 10), hexUnit (random 11), 45,
        52, hexUnit (random 12), hexUnit (random 13), hexUnit (random 14), 45,
        hexUnit ((random 15 &&& 0x3) ||| 0x8), hexUnit (random 16), hexUnit (random 17),
        hexUnit (random 18), 45,
        hexUnit (random 19), hexUnit (random 20), hexUnit (random 21), hexUnit (random 22),
        hexUnit (random 23), hexUnit (random 24), hexUnit (random 25), hexUnit (random 26),
        hexUnit (random 27), hexUnit (random 28), hexUnit (random 29), hexUnit (random 30)] := by
  have hv : (random 15 &&& 0x3) ||| 0x8 ≤ 15 := by
    rcases variant_nibble (random 15) with h | h | h | h <;> omega
  simp [generateSessionId, sessionIdTemplate_eq, replaceXY, toString16_digit _ (hr _),
    toString16_digit _ hv]

theorem generateSessionId_ne_nil (random : Nat → Nat) : generateSessionId random ≠ [] := by
  intro h
  have hmem : (45 : Nat) ∈ generateSessionId random := by
    simp [generateSessionId, sessionIdTemplate_eq, replaceXY]
  rw [h] at hmem
  simp at hmem

/-- Claim C9.  Whatever the draws (each an integer `r` with `0 ≤ r ≤ 15`),
`generateSessionId` returns a string of the version-4 UUID shape: 36 code units, hyphens
at 8, 13, 18 and 23, lowercase hexadecimal digits elsewhere, `4` at index 14, and at
index 19 the digit of `r & 0x3 | 0x8` for the draw made there, one of `8 9 a b`. -/
theorem generateSessionId_format (random : Nat → Nat) (hr : ∀ i, random i ≤ 15) :
    UuidV4Shaped (generateSessionId random) ∧
    [(generateSessionId random)[19]?.getD 0] = toString16 ((random 15 &&& 0x3) ||| 0x8) := by
  have hv : (random 15 &&& 0x3) ||| 0x8 ≤ 15 := by
    rcases variant_nibble (random 15) with h | h | h | h <;> omega
  unfold UuidV4Shaped
  rw [generateSessionId_eq random hr]
  refine ⟨⟨rfl, ?_, ?_, rfl, ?_⟩, ?_⟩
  · rintro i (h | h | h | h) <;> subst h <;> rfl
  · intro i hi h8 h13 h18 h23
    interval_cases i <;>
      first
        | exact absurd rfl h8
        | exact absurd rfl h13
        | exact absurd rfl h18
        | exact absurd rfl h23
        | exact ⟨_, rfl, isLowerHex_hexUnit _ (hr _)⟩
        | exact ⟨_, rfl, isLowerHex_hexUnit _ hv⟩
        | exact ⟨52, rfl, rfl⟩
  · rcases variant_nibble (random 15) with h | h | h | h <;> simp [h, hexUnit]
  · simp [toString16_digit _ hv]

/-- Witness for C9: the identifier generated from `sampleDraws`. -/
theorem generateSessionId_format_witness :
    (∀ i, sampleDraws i ≤ 15) ∧
    generateSessionId sampleDraws = js "3a18f6d4-b290-47e5-83a1-8f6d4b2907e5" ∧
    UuidV4Shaped (generateSessionId sampleDraws) :=
  ⟨fun i => Nat.le_of_lt_succ (Nat.mod_lt _ (by decide)), by decide,
    (generateSessionId_format sampleDraws
      (fun i => Nat.le_of_lt_succ (Nat.mod_lt _ (by decide)))).1⟩

theorem ensureSession_of_hasSession (env : Env) (st : Client) (h : hasSession st = true) :
    ensureSession env st = st := by
  simp [ensureSession, h]

/-- Claim C10.  From a state that holds no identifier, or holds one that is stored, the
"create session if needed" step of `handleFileSelect` run twice in a row (whatever the
draws) gives an identifier the first time and the same one the second time, and after
each run the value stored under `valeria_session_id` is that identifier. -/
theorem ensureSession_twice (env₁ env₂ : Env) (st : Client)
    (hstored : hasSession st = true → st.storage = st.sessionId) :
    hasSession (ensureSession env₁ st) = true ∧
    (ensureSession env₂ (ensureSession env₁ st)).sessionId = (ensureSession env₁ st).sessionId ∧
    (ensureSession env₁ st).storage = (ensureSession env₁ st).sessionId ∧
    (ensureSession env₂ (ensureSession env₁ st)).storage
      = (ensureSession env₁ st).sessionId := by
  have hgen : truthy (generateSessionId env₁.random) = true :=
    (truthy_iff _).2 (generateSessionId_ne_nil _)
  by_cases h : hasSession st = true
  · have h1 := ensureSession_of_hasSession env₁ st h
    have h2 := ensureSession_of_hasSession env₂ st h
    rw [h1, h2]
    exact ⟨h, rfl, hstored h, hstored h⟩
  · have h1 : ensureSession env₁ st
        = { st with sessionId := some (generateSessionId env₁.random)
                    storage := some (generateSessionId env₁.random) } := by
      simp [ensureSession, h]
    have h3 : hasSession (ensureSession env₁ st) = true := by
      rw [h1]; simpa [hasSession] using hgen
    have h2 : ensureSession env₂ (ensureSession env₁ st) = ensureSession env₁ st :=
      ensureSession_of_hasSession env₂ _ h3
    rw [h2]
    refine ⟨h3, rfl, ?_, ?_⟩ <;> rw [h1]

/-- Witness for C10: a client without a session, and one with a stored session. -/
theorem ensureSession_twice_witness :
    (hasSession freshClient = true → freshClient.storage = freshClient.sessionId) ∧
    (ensureSession offlineEnv (ensureSession backend freshClient)).sessionId
      = (ensureSession backend freshClient).sessionId ∧
    (ensureSession backend freshClient).storage = (ensureSession backend freshClient).sessionId ∧
    (ensureSession backend sampleClient).sessionId = some (js "abc-123") :=
  ⟨by decide,
    (ensureSession_twice backend offlineEnv freshClient (by decide)).2.1,
    (ensureSession_twice backend offlineEnv freshClient (by decide)).2.2.1,
    by decide⟩

/-! ## Lookups in the conversation log -/

theorem removeElem_none (p : Elem → Bool) (elems : Markup) (h : elems.any p = false) :
    removeElem p elems = none := by
  induction elems with
  | nil => rfl
  | cons e rest ih =>
    simp only [List.any_cons, Bool.or_eq_false_iff] at h
    simp [removeElem, h.1, ih h.2]

theorem removeElem_any (p q : Elem → Bool) (elems elems1 : Markup)
    (h : removeElem p elems = some elems1) (hq : elems.any q = false) :
    elems1.any q = false := by
  induction elems generalizing elems1 with
  | nil => simp [removeElem] at h
  | cons e rest ih =>
    simp only [List.any_cons, Bool.or_eq_false_iff] at hq
    simp only [removeElem] at h
    split at h
    · simp only [Option.some.injEq] at h
      subst h
      rw [List.any_eq_false] at hq ⊢
      intro x hx
      exact hq.2 x ((List.dropWhile_sublist _).subset hx)
    · cases hr : removeElem p rest with
      | none => simp [hr] at h
      | some r =>
        simp only [hr, Option.map_some', Option.some.injEq] at h
        subst h
        simp [hq.1, ih r hr hq.2]

theorem holdsId_append (id : JSString) (l r : List Entry) :
    holdsId id (l ++ r) = (holdsId id l || holdsId id r) := by
  simp [holdsId]

theorem holdsId_of_mem (id : JSString) (l : List Entry) (h : Entry.loading id ∈ l) :
    holdsId id l = true := by
  simp only [holdsId, List.any_eq_true]
  exact ⟨_, h, by simp [Entry.ownId]⟩

theorem holdsId_cons (id : JSString) (e : Entry) (l : List Entry) :
    holdsId id (e :: l) = (holdsId id [e] || holdsId id l) := by
  simp [holdsId]

theorem holdsId_removeWelcome (id : JSString) (l : List Entry) (h : holdsId id l = false) :
    holdsId id (removeWelcome l) = false := by
  induction l with
  | nil => rfl
  | cons e rest ih =>
    rw [holdsId_cons, Bool.or_eq_false_iff] at h
    obtain ⟨h1, h2⟩ := h
    have ih1 := ih h2
    simp only [removeWelcome] at ih1 ⊢
    simp only [removeFirst]
    split
    · exact h2
    · cases e with
      | message role c elems =>
        cases hr : removeElem (fun x => x.classes.contains (js "welcome-message")) elems with
        | none =>
          simp only [hr]
          rw [holdsId_cons, h1, ih1]; rfl
        | some elems1 =>
          simp only [hr]
          rw [holdsId_cons, h2, Bool.or_false]
          have hq : elems.any (fun x => x.id == some id) = false := by
            simpa [holdsId, Entry.ownId] using h1
          have := removeElem_any _ (fun x => x.id == some id) elems elems1 hr hq
          simpa [holdsId, Entry.ownId] using this
      | welcome => simp only []; rw [holdsId_cons, h1, ih1]; rfl
      | loading i => simp only []; rw [holdsId_cons, h1, ih1]; rfl
      | error c => simp only []; rw [holdsId_cons, h1, ih1]; rfl

theorem removeFirst_append_of_not_found (id : JSString) (l r : List Entry)
    (h : holdsId id l = false) :
    removeFirst (fun e => e.ownId == some id) (fun x => x.id == some id) (l ++ r)
      = l ++ removeFirst (fun e => e.ownId == some id) (fun x => x.id == some id) r := by
  induction l with
  | nil => rfl
  | cons e rest ih =>
    rw [holdsId_cons, Bool.or_eq_false_iff] at h
    obtain ⟨h1, h2⟩ := h
    have hown : (e.ownId == some id) = false := by
      cases e <;> simp_all [holdsId, Entry.ownId]
    simp only [List.cons_append, removeFirst, hown]
    cases e with
    | message role c elems =>
      have hq : elems.any (fun x => x.id == some id) = false := by
        simpa [holdsId, Entry.ownId] using h1
      simp [removeElem_none _ _ hq, ih h2]
    | welcome => simp [ih h2]
    | loading i => simp [ih h2]
    | error c => simp [ih h2]

/-- A placeholder that is the only element with its id is the one `removeMessage` takes
out. -/
theorem removeFirst_placeholder (id : JSString) (l : List Entry) (h : holdsId id l = false) :
    removeFirst (fun e => e.ownId == some id) (fun x => x.id == some id) (l ++ [Entry.loading id])
      = l := by
  rw [removeFirst_append_of_not_found id l _ h]
  simp [removeFirst, Entry.ownId]

/-! ## Sending a message -/

/-- Claim C4.  While `isProcessing` is set, `sendMessage` returns at its guard whatever
the compose text (in particular for every non-empty one): the whole client state is
unchanged, so no request is issued and the log, the session identifier, the compose text
and the flag stay as they were. -/
theorem sendMessage_guard (env : Env) (st : Client) (hp : st.isProcessing = true) :
    sendMessage env st = st ∧
    (sendMessage env st).sent = st.sent ∧
    (sendMessage env st).log = st.log ∧
    (sendMessage env st).sessionId = st.sessionId ∧
    (sendMessage env st).input = st.input ∧
    (sendMessage env st).isProcessing = true := by
  have h : sendMessage env st = st := by simp [sendMessage, hp]
  rw [h]
  exact ⟨rfl, rfl, rfl, rfl, rfl, hp⟩

/-- Witness for C4: a busy client with non-empty compose text. -/
theorem sendMessage_guard_witness :
    (busyClient.isProcessing = true ∧ trim busyClient.input ≠ []) ∧
    sendMessage backend busyClient = busyClient ∧
    (sendMessage backend busyClient).sent = [] :=
  ⟨⟨rfl, by decide⟩, (sendMessage_guard backend busyClient rfl).1,
    (sendMessage_guard backend busyClient rfl).2.1⟩

/-- When neither the log nor the markup rendered from the message holds an element with
the placeholder's id, a successful exchange ends as the specification describes: the
request carries the trimmed text and the current session, the session identifier is
updated and stored, the log gains the user entry and the assistant entry (each
`addMessage` first removing what its banner lookup finds), the placeholder is gone and
`isProcessing` is clear. -/
theorem sendMessage_success_of_fresh (env : Env) (st : Client) (data : Data) (r t : JSString)
    (hm : trim st.input ≠ [])
    (hp : st.isProcessing = false)
    (hfresh : holdsId (loadingElementId env) st.log = false)
    (hrender : (env.render (trim st.input)).any
        (fun x => x.id == some (loadingElementId env)) = false)
    (hfetch : env.fetch (Request.chat (trim st.input) st.sessionId) = FetchResult.json true data)
    (hr : data.response = JsVal.str r) (ht : data.session_id = JsVal.str t) (htne : t ≠ []) :
    (sendMessage env st).sent = st.sent ++ [Request.chat (trim st.input) st.sessionId] ∧
    (sendMessage env st).sessionId = some t ∧
    (sendMessage env st).storage = some t ∧
    (sendMessage env st).log
      = removeWelcome (removeWelcome st.log
          ++ [Entry.message (js "user") (trim st.input) (env.render (trim st.input))])
        ++ [Entry.message (js "assistant") r (env.render r)] ∧
    Entry.loading (loadingElementId env) ∉ (sendMessage env st).log ∧
    (sendMessage env st).isProcessing = false := by
  have hm1 : truthy (trim st.input) = true := (truthy_iff _).2 hm
  have ht1 : truthy t = true := (truthy_iff _).2 htne
  have hfresh1 : holdsId (loadingElementId env) (removeWelcome st.log
      ++ [Entry.message (js "user") (trim st.input) (env.render (trim st.input))]) = false := by
    rw [holdsId_append, holdsId_removeWelcome _ _ hfresh]
    simpa [holdsId, Entry.ownId] using hrender
  have h2 := removeFirst_placeholder _ _ hfresh1
  simp only [List.append_assoc, List.singleton_append] at h2
  have hlog : (sendMessage env st).log
      = removeWelcome (removeWelcome st.log
          ++ [Entry.message (js "user") (trim st.input) (env.render (trim st.input))])
        ++ [Entry.message (js "assistant") r (env.render r)] := by
    simp [sendMessage, hm1, hp, addMessage, addLoadingMessage, setProcessing, updateStatus,
      removeMessage, hfetch, hr, ht, JsVal.truthy, JsVal.toJSString, ht1, h2]
  refine ⟨?_, ?_, ?_, hlog, ?_, ?_⟩
  · simp [sendMessage, hm1, hp, addMessage, addLoadingMessage, setProcessing, updateStatus,
      removeMessage, hfetch, hr, ht, JsVal.truthy, JsVal.toJSString, ht1]
  · simp [sendMessage, hm1, hp, addMessage, addLoadingMessage, setProcessing, updateStatus,
      removeMessage, hfetch, hr, ht, JsVal.truthy, JsVal.toJSString, ht1]
  · simp [sendMessage, hm1, hp, addMessage, addLoadingMessage, setProcessing, updateStatus,
      removeMessage, hfetch, hr, ht, JsVal.truthy, JsVal.toJSString, ht1]
  · rw [hlog]
    intro hmem
    rcases List.mem_append.1 hmem with h | h
    · have := holdsId_removeWelcome _ _ hfresh1
      rw [holdsId_of_mem _ _ h] at this
      cases this
    · simp at h
  · simp [sendMessage, hm1, hp, addMessage, addLoadingMessage, setProcessing, updateStatus,
      removeMessage, hfetch, hr, ht, JsVal.truthy, JsVal.toJSString, ht1]

/-- Claim C5 at a compose text with inline HTML.  The text is a bold element whose `id`
is the one the placeholder of this call gets, `loading-<Date.now()>`; the renderer passes
it through into the user entry, which precedes the placeholder in the document.  The
backend answers 2xx with a response and a session identifier.  The request, the session
update and the flag are as claimed, but `removeMessage` ("Remove loading and add
response", line 118) takes the bold element out of the user entry, and the loading
placeholder remains in the log, between the user entry and the assistant entry. -/
theorem sendMessage_placeholder_left :
    (trim htmlClient.input = boldWithId ∧ htmlClient.isProcessing = false ∧
      htmlClient.sessionId = none ∧
      loadingElementId backend = js "loading-1730000000000" ∧
      backend.render boldWithId
        = [{ depth := 0, id := none, classes := [] },
            { depth := 1, id := some (js "loading-1730000000000"), classes := [] }] ∧
      backend.fetch (Request.chat boldWithId none)
        = FetchResult.json true
            { noData with response := .str (js "..."), session_id := .str (js "abc-123") }) ∧
    (sendMessage backend htmlClient).sent = [Request.chat boldWithId none] ∧
    (sendMessage backend htmlClient).sessionId = some (js "abc-123") ∧
    (sendMessage backend htmlClient).storage = some (js "abc-123") ∧
    (sendMessage backend htmlClient).isProcessing = false ∧
    (sendMessage backend htmlClient).log
      = [Entry.message (js "user") boldWithId paragraph,
          Entry.loading (js "loading-1730000000000"),
          Entry.message (js "assistant") (js "...") paragraph] ∧
    Entry.loading (loadingElementId backend) ∈ (sendMessage backend htmlClient).log := by
  decide

/-- Claim C3, as the specification states it, fails: when `fetch` itself rejects there is
no body, and the entry shows the rejection's own message, not the generic one; and a body
whose error field is the empty string gets the generic message, not the field. -/
theorem sendMessage_error_text_counterexample :
    (failedExchange
        (offlineEnv.fetch (Request.chat (trim sampleClient.input) sampleClient.sessionId)) = true ∧
      (sendMessage offlineEnv sampleClient).log.getLast?
        = some (Entry.error (js "Error: Failed to fetch")) ∧
      (sendMessage offlineEnv sampleClient).log.getLast?
        ≠ some (Entry.error (specErrorText
            (offlineEnv.fetch (Request.chat (trim sampleClient.input) sampleClient.sessionId))))) ∧
    (failedExchange
        (emptyErrorEnv.fetch (Request.chat (trim sampleClient.input) sampleClient.sessionId)) = true ∧
      (sendMessage emptyErrorEnv sampleClient).log.getLast?
        = some (Entry.error (js "Error: Request failed")) ∧
      (sendMessage emptyErrorEnv sampleClient).log.getLast?
        ≠ some (Entry.error (specErrorText
            (emptyErrorEnv.fetch
              (Request.chat (trim sampleClient.input) sampleClient.sessionId))))) := by
  decide

/-- Claim C3, amended.  For a send that passes the guard, the last entry of the log is an
error entry whose text is `Error: ` followed by: the body's error field, when the response
is non-2xx and the field is a non-empty string; the generic `Request failed`, when the
response is non-2xx and the field is missing, null or empty; and the failure's own
message, when `fetch` rejects or the body cannot be parsed. -/
theorem sendMessage_error_text (env : Env) (st : Client)
    (hm : trim st.input ≠ []) (hp : st.isProcessing = false) :
    (∀ data e, env.fetch (Request.chat (trim st.input) st.sessionId) = FetchResult.json false data →
      data.error = JsVal.str e → e ≠ [] →
      (sendMessage env st).log.getLast? = some (Entry.error (js "Error: " ++ e))) ∧
    (∀ data, env.fetch (Request.chat (trim st.input) st.sessionId) = FetchResult.json false data →
      data.error.truthy = false →
      (sendMessage env st).log.getLast?
        = some (Entry.error (js "Error: " ++ js "Request failed"))) ∧
    (∀ msg, env.fetch (Request.chat (trim st.input) st.sessionId) = FetchResult.rejected msg →
      (sendMessage env st).log.getLast? = some (Entry.error (js "Error: " ++ msg))) ∧
    (∀ ok msg, env.fetch (Request.chat (trim st.input) st.sessionId) = FetchResult.badBody ok msg →
      (sendMessage env st).log.getLast? = some (Entry.error (js "Error: " ++ msg))) := by
  have hm1 : truthy (trim st.input) = true := (truthy_iff _).2 hm
  refine ⟨?_, ?_, ?_, ?_⟩
  · intro data e hf he hne
    have he1 : truthy e = true := (truthy_iff _).2 hne
    simp [sendMessage, hm1, hp, hf, he, he1, JsVal.truthy, JsVal.toJSString, addErrorMessage,
      addMessage, addLoadingMessage, removeMessage, setProcessing, updateStatus]
  · intro data hf he
    simp [sendMessage, hm1, hp, hf, he, addErrorMessage, addMessage, addLoadingMessage,
      removeMessage, setProcessing, updateStatus]
  · intro msg hf
    simp [sendMessage, hm1, hp, hf, addErrorMessage, addMessage, addLoadingMessage,
      removeMessage, setProcessing, updateStatus]
  · intro ok msg hf
    simp [sendMessage, hm1, hp, hf, addErrorMessage, addMessage, addLoadingMessage,
      removeMessage, setProcessing, updateStatus]

/-- Witness for C3 amended: a non-2xx answer with an error field, and a rejected `fetch`. -/
theorem sendMessage_error_text_witness :
    (trim sampleClient.input ≠ [] ∧ sampleClient.isProcessing = false) ∧
    (sendMessage failingEnv sampleClient).log.getLast?
      = some (Entry.error (js "Error: Backend unavailable")) ∧
    (sendMessage offlineEnv sampleClient).log.getLast?
      = some (Entry.error (js "Error: Failed to fetch")) :=
  ⟨⟨by decide, rfl⟩,
    (sendMessage_error_text failingEnv sampleClient (by decide) rfl).1
      { noData with error := .str (js "Backend unavailable") } (js "Backend unavailable")
      rfl rfl (by decide),
    (sendMessage_error_text offlineEnv sampleClient (by decide) rfl).2.2.1
      (js "Failed to fetch") rfl⟩

/-! ## Clearing the conversation -/

/-- Claim C2, as the specification states it, fails: when the clear request itself
rejects, the `catch` only logs, and the session identifier and the stored key survive. -/
theorem clearConversation_reset_counterexample :
    answered (offlineEnv.fetch (Request.clear sampleClient.sessionId)) = false ∧
    (clearConversation offlineEnv true sampleClient).sessionId = some (js "abc-123") ∧
    (clearConversation offlineEnv true sampleClient).storage = some (js "abc-123") ∧
    ¬ ((clearConversation offlineEnv true sampleClient).sessionId = none ∧
        (clearConversation offlineEnv true sampleClient).storage = none) := by
  decide

/-- Claim C2, amended.  After a confirmed `clearConversation`, `sessionId` is null and the
stored key is removed whenever the clear request is answered, with any status, or is not
sent because no session is held; when the request itself rejects, both are left as they
were. -/
theorem clearConversation_reset (env : Env) (st : Client) :
    ((hasSession st = false ∨ answered (env.fetch (Request.clear st.sessionId)) = true) →
      (clearConversation env true st).sessionId = none ∧
      (clearConversation env true st).storage = none) ∧
    ((hasSession st = true ∧ answered (env.fetch (Request.clear st.sessionId)) = false) →
      (clearConversation env true st).sessionId = st.sessionId ∧
      (clearConversation env true st).storage = st.storage) := by
  constructor
  · intro h
    by_cases hs : hasSession st = true
    · have ha : answered (env.fetch (Request.clear st.sessionId)) = true := by
        rcases h with h | h
        · rw [hs] at h; cases h
        · exact h
      cases hf : env.fetch (Request.clear st.sessionId) with
      | rejected msg => rw [hf] at ha; cases ha
      | badBody ok msg => simp [clearConversation, hs, hf, updateStatus]
      | json ok data => simp [clearConversation, hs, hf, updateStatus]
    · simp [clearConversation, hs, updateStatus]
  · rintro ⟨hs, ha⟩
    cases hf : env.fetch (Request.clear st.sessionId) with
    | rejected msg => simp [clearConversation, hs, hf]
    | badBody ok msg => rw [hf] at ha; cases ha
    | json ok data => rw [hf] at ha; cases ha

/-- Witness for C2 amended: a non-2xx answer resets the session, a rejection keeps it. -/
theorem clearConversation_reset_witness :
    (answered (failingEnv.fetch (Request.clear sampleClient.sessionId)) = true ∧
      (clearConversation failingEnv true sampleClient).sessionId = none ∧
      (clearConversation failingEnv true sampleClient).storage = none) ∧
    ((hasSession sampleClient = true ∧
        answered (offlineEnv.fetch (Request.clear sampleClient.sessionId)) = false) ∧
      (clearConversation offlineEnv true sampleClient).sessionId = sampleClient.sessionId ∧
      (clearConversation offlineEnv true sampleClient).storage = sampleClient.storage) :=
  ⟨⟨by decide, (clearConversation_reset failingEnv sampleClient).1 (Or.inr (by decide))⟩,
    ⟨by decide, (clearConversation_reset offlineEnv sampleClient).2 (by decide)⟩⟩

/-! ## Uploading a file -/

/-- Whatever the backend answers, `handleFileSelect` hands `fetch` the upload request and
nothing else: the nested `sendMessage` runs while `isProcessing` is still set. -/
theorem handleFileSelect_sent (env : Env) (file : File) (st : Client) :
    (handleFileSelect env (some file) st).sent
      = st.sent ++ [Request.upload file (ensureSession env st).sessionId] := by
  simp only [handleFileSelect]
  cases hf : env.fetch (Request.upload file
      (updateStatus (setProcessing (ensureSession env { st with fileName := file.name }) true)
        (js "Uploading " ++ file.name ++ js "...")).sessionId) with
  | rejected msg =>
    simp [hf, setProcessing, updateStatus, addErrorMessage, ensureSession, hasSession]
    split <;> rfl
  | badBody ok msg =>
    simp [hf, setProcessing, updateStatus, addErrorMessage, ensureSession, hasSession]
    split <;> rfl
  | json ok data =>
    cases ok with
    | false =>
      simp [hf, setProcessing, updateStatus, addErrorMessage, ensureSession, hasSession]
      split <;> rfl
    | true =>
      cases hmsg : data.message <;>
        simp [hf, hmsg, setProcessing, updateStatus, addErrorMessage, addMessage, sendMessage,
          ensureSession, hasSession] <;>
        split <;> rfl

/-- Claim C1 at the scenario of the specification (file `nomina.pdf`, session `abc-123`,
upload answered with success): the two log entries appear and the compose field is set to
the follow-up text, but `fetch` is handed the upload request only.  The follow-up
`sendMessage()` returns at its guard because `handleFileSelect` has set `isProcessing`
and clears it only in its `finally`; no chat request is issued. -/
theorem handleFileSelect_autosend_blocked :
    backend.fetch (Request.upload nomina (some (js "abc-123")))
      = FetchResult.json true
          { noData with message := .str (js "File uploaded successfully"),
                        file_path := .str (js "/uploads/nomina.pdf") } ∧
    (handleFileSelect backend (some nomina) idleClient).log
      = [Entry.message (js "user") (js "📎 Uploaded: nomina.pdf") paragraph,
          Entry.message (js "assistant") (js "File uploaded successfully") paragraph] ∧
    (handleFileSelect backend (some nomina) idleClient).input
      = js "Process the file I just uploaded: /uploads/nomina.pdf" ∧
    (handleFileSelect backend (some nomina) idleClient).sent
      = [Request.upload nomina (some (js "abc-123"))] ∧
    Request.chat (js "Process the file I just uploaded: /uploads/nomina.pdf")
        (some (js "abc-123"))
      ∉ (handleFileSelect backend (some nomina) idleClient).sent := by
  decide

/-! ## What every handler leaves behind -/

theorem sendMessage_eq_self_of_isProcessing (env : Env) (st : Client)
    (hp : st.isProcessing = true) : sendMessage env st = st := by
  simp [sendMessage, hp]

@[simp]
theorem setProcessing_isProcessing (st : Client) (p : Bool) :
    (setProcessing st p).isProcessing = p := by
  cases p <;> rfl

@[simp]
theorem addMessage_isProcessing (env : Env) (st : Client) (role : JSString)
    (content : JsVal) : (addMessage env st role content).1.isProcessing = st.isProcessing := by
  cases content <;> rfl

theorem SessionStored.of_eq {st st1 : Client} (h : SessionStored st)
    (h1 : st1.sessionId = st.sessionId) (h2 : st1.storage = st.storage) : SessionStored st1 := by
  unfold SessionStored hasSession at *
  rw [h1, h2]
  exact h

theorem SessionStored.of_some {st : Client} (t : JSString)
    (h1 : st.sessionId = some t) (h2 : st.storage = some t) : SessionStored st := by
  intro _
  rw [h1, h2]

theorem SessionStored.of_none {st : Client} (h1 : st.sessionId = none) : SessionStored st := by
  intro h
  simp [hasSession, h1] at h

theorem init_sessionStored (stored : Option JSString) (log : List Entry) (input : JSString) :
    SessionStored (init stored log input) := by
  cases stored with
  | none => exact SessionStored.of_none rfl
  | some s =>
    by_cases hs : truthy s = true
    · exact SessionStored.of_some s (by simp [init, hs]) rfl
    · exact SessionStored.of_none (by simp [init, hs])

theorem ensureSession_sessionStored (env : Env) (st : Client) (h : SessionStored st) :
    SessionStored (ensureSession env st) := by
  unfold ensureSession
  split
  · exact SessionStored.of_some (generateSessionId env.random) rfl rfl
  · exact h

theorem sendMessage_session (env : Env) (st : Client) :
    ((sendMessage env st).sessionId = st.sessionId ∧ (sendMessage env st).storage = st.storage) ∨
    ∃ t, (sendMessage env st).sessionId = some t ∧ (sendMessage env st).storage = some t := by
  by_cases hg : (!truthy (trim st.input) || st.isProcessing) = true
  · have : sendMessage env st = st := by simp only [sendMessage, hg, if_true]
    rw [this]; exact Or.inl ⟨rfl, rfl⟩
  · simp only [sendMessage, hg, addLoadingMessage, addMessage]
    cases hf : env.fetch (Request.chat (trim st.input) st.sessionId) with
    | rejected msg =>
      simp [hf, setProcessing, updateStatus, removeMessage, addErrorMessage]
    | badBody ok msg =>
      simp [hf, setProcessing, updateStatus, removeMessage, addErrorMessage]
    | json ok data =>
      cases ok with
      | false => simp [hf, setProcessing, updateStatus, removeMessage, addErrorMessage]
      | true =>
        by_cases hs : data.session_id.truthy = true <;> cases hresp : data.response <;>
          simp [hf, hs, hresp, setProcessing, updateStatus, removeMessage, addErrorMessage]

theorem sendMessage_sessionStored (env : Env) (st : Client) (h : SessionStored st) :
    SessionStored (sendMessage env st) := by
  rcases sendMessage_session env st with ⟨h1, h2⟩ | ⟨t, h1, h2⟩
  · exact h.of_eq h1 h2
  · exact SessionStored.of_some t h1 h2

theorem clearConversation_sessionStored (env : Env) (confirmed : Bool) (st : Client)
    (h : SessionStored st) : SessionStored (clearConversation env confirmed st) := by
  cases confirmed with
  | false => exact h
  | true =>
    by_cases hs : hasSession st = true
    · cases hf : env.fetch (Request.clear st.sessionId) with
      | rejected msg =>
        exact h.of_eq (by simp [clearConversation, hs, hf]) (by simp [clearConversation, hs, hf])
      | badBody ok msg =>
        exact SessionStored.of_none (by simp [clearConversation, hs, hf, updateStatus])
      | json ok data =>
        exact SessionStored.of_none (by simp [clearConversation, hs, hf, updateStatus])
    · exact SessionStored.of_none (by simp [clearConversation, hs, updateStatus])

@[simp]
theorem setProcessing_sessionId (st : Client) (p : Bool) :
    (setProcessing st p).sessionId = st.sessionId := by
  cases p <;> rfl

@[simp]
theorem setProcessing_storage (st : Client) (p : Bool) :
    (setProcessing st p).storage = st.storage := by
  cases p <;> rfl

theorem ensureSession_fileName (env : Env) (st : Client) (name : JSString) :
    (ensureSession env { st with fileName := name }).sessionId = (ensureSession env st).sessionId ∧
    (ensureSession env { st with fileName := name }).storage = (ensureSession env st).storage := by
  have hh : hasSession { st with fileName := name } = hasSession st := rfl
  by_cases hs : hasSession st = true <;> simp [ensureSession, hh, hs]

theorem handleFileSelect_session (env : Env) (file : File) (st : Client) :
    (handleFileSelect env (some file) st).sessionId = (ensureSession env st).sessionId ∧
    (handleFileSelect env (some file) st).storage = (ensureSession env st).storage := by
  have hsid : (updateStatus (setProcessing (ensureSession env { st with fileName := file.name })
      true) (js "Uploading " ++ file.name ++ js "...")).sessionId
      = (ensureSession env st).sessionId := by
    simp [updateStatus, (ensureSession_fileName env st file.name).1]
  have hsto : (updateStatus (setProcessing (ensureSession env { st with fileName := file.name })
      true) (js "Uploading " ++ file.name ++ js "...")).storage
      = (ensureSession env st).storage := by
    simp [updateStatus, (ensureSession_fileName env st file.name).2]
  have hproc : (updateStatus (setProcessing (ensureSession env
      { st with fileName := file.name }) true)
      (js "Uploading " ++ file.name ++ js "...")).isProcessing = true := by
    simp [updateStatus]
  simp only [handleFileSelect]
  generalize (updateStatus (setProcessing (ensureSession env { st with fileName := file.name })
      true) (js "Uploading " ++ file.name ++ js "...")) = st1 at hsid hsto hproc ⊢
  rw [← hsid, ← hsto]
  cases hf : env.fetch (Request.upload file st1.sessionId) with
  | rejected msg => simp [hf, updateStatus, addErrorMessage, setProcessing]
  | badBody ok msg => simp [hf, updateStatus, addErrorMessage, setProcessing]
  | json ok data =>
    cases ok with
    | false => simp [hf, updateStatus, addErrorMessage, setProcessing]
    | true =>
      cases hmsg : data.message with
      | str c =>
        simp only [hf, hmsg, addMessage]
        rw [sendMessage_eq_self_of_isProcessing _ _ (by simpa using hproc)]
        simp [updateStatus, setProcessing]
      | undefined => simp [hf, hmsg, updateStatus, addErrorMessage, addMessage, setProcessing]
      | null => simp [hf, hmsg, updateStatus, addErrorMessage, addMessage, setProcessing]

theorem handleFileSelect_sessionStored (env : Env) (file : Option File) (st : Client)
    (h : SessionStored st) : SessionStored (handleFileSelect env file st) := by
  cases file with
  | none => exact h
  | some file =>
    obtain ⟨h1, h2⟩ := handleFileSelect_session env file st
    exact (ensureSession_sessionStored env st h).of_eq h1 h2

theorem loadHistoryItems_session (env : Env) (items : List HistoryItem) (st : Client) :
    (loadHistoryItems env items st).1.sessionId = st.sessionId ∧
    (loadHistoryItems env items st).1.storage = st.storage ∧
    (loadHistoryItems env items st).1.isProcessing = st.isProcessing := by
  induction items generalizing st with
  | nil => exact ⟨rfl, rfl, rfl⟩
  | cons msg rest ih =>
    simp only [loadHistoryItems]
    split
    · cases hc : msg.content with
      | str c =>
        simp only [addMessage]
        exact ih _
      | undefined => simp [addMessage]
      | null => simp [addMessage]
    · exact ih st

theorem loadHistory_session (env : Env) (st : Client) :
    (loadHistory env st).sessionId = st.sessionId ∧
    (loadHistory env st).storage = st.storage ∧
    (loadHistory env st).isProcessing = st.isProcessing := by
  simp only [loadHistory]
  split
  · exact ⟨rfl, rfl, rfl⟩
  · split
    · exact ⟨rfl, rfl, rfl⟩
    · exact ⟨rfl, rfl, rfl⟩
    · split
      · exact ⟨rfl, rfl, rfl⟩
      · exact ⟨rfl, rfl, rfl⟩
      · exact loadHistoryItems_session env _ _

theorem sendMessage_isProcessing (env : Env) (st : Client) (hp : st.isProcessing = false) :
    (sendMessage env st).isProcessing = false := by
  by_cases hg : (!truthy (trim st.input) || st.isProcessing) = true
  · have : sendMessage env st = st := by simp only [sendMessage, hg, if_true]
    rw [this]; exact hp
  · simp only [sendMessage, hg]
    simp

theorem handleFileSelect_isProcessing (env : Env) (file : Option File) (st : Client)
    (hp : st.isProcessing = false) : (handleFileSelect env file st).isProcessing = false := by
  cases file with
  | none => exact hp
  | some file => simp [handleFileSelect, updateStatus]

theorem clearConversation_isProcessing (env : Env) (confirmed : Bool) (st : Client) :
    (clearConversation env confirmed st).isProcessing = st.isProcessing := by
  cases confirmed with
  | false => rfl
  | true =>
    by_cases hs : hasSession st = true
    · cases hf : env.fetch (Request.clear st.sessionId) <;>
        simp [clearConversation, hs, hf, updateStatus]
    · simp [clearConversation, hs, updateStatus]

/-- Between two events a held session identifier is the stored one and `isProcessing` is
clear. -/
theorem reachable_settled {st : Client} (h : Reachable st) :
    SessionStored st ∧ st.isProcessing = false := by
  induction h with
  | start stored log input => exact ⟨init_sessionStored stored log input, rfl⟩
  | @step st0 st1 _ hstep ih =>
    obtain ⟨h2, h3⟩ := ih
    cases hstep with
    | send env =>
      exact ⟨sendMessage_sessionStored env st0 h2, sendMessage_isProcessing env st0 h3⟩
    | file env file =>
      exact ⟨handleFileSelect_sessionStored env file st0 h2,
        handleFileSelect_isProcessing env file st0 h3⟩
    | history env =>
      obtain ⟨e1, e2, e3⟩ := loadHistory_session env st0
      exact ⟨h2.of_eq e1 e2, e3.trans h3⟩
    | clear env confirmed =>
      exact ⟨clearConversation_sessionStored env confirmed st0 h2,
        (clearConversation_isProcessing env confirmed st0).trans h3⟩
    | markdown md =>
      refine ⟨h2.of_eq ?_ ?_, ?_⟩
      · simp [insertMarkdown, setSelectionRange]
      · simp [insertMarkdown, setSelectionRange]
      · simpa [insertMarkdown, setSelectionRange] using h3
    | edit v a b =>
      refine ⟨h2.of_eq ?_ ?_, ?_⟩
      · simp [setSelectionRange]
      · simp [setSelectionRange]
      · simpa [setSelectionRange] using h3
    | expire c => exact ⟨h2.of_eq rfl rfl, h3⟩

/-- Between two events a held session identifier is the stored one. -/
theorem reachable_stored {st : Client} (h : Reachable st) :
    hasSession st = true → st.storage = st.sessionId :=
  (reachable_settled h).1

end Valeria
